import Mathlib

/-!
Shallow embedding of `src/lambdas/webhook.py` (MITLibraries/alma-webhook-lambdas).

Python values parsed from JSON are modelled by `Json`; Python exceptions
(`KeyError`, `TypeError`, ...) by the `Except Exc` monad; the process
environment (`os.environ` / `os.getenv`) by an association list `Env`;
the boto3 `start_execution` side effect by a returned list of `OrchCall`
records; `datetime.now(tz=UTC)` by an explicit `Timestamp` argument.
`hmac.digest(secret, msg, "sha256")` and `json.loads` are external library
primitives and are passed as function parameters; `base64.b64encode` and
`json.dumps` are modelled concretely below.
-/

namespace AlmaWebhook

/-- Python exceptions that the embedded code can raise. -/
inductive Exc where
  | keyError (key : String)
  | typeError
  | attributeError
  | valueError
  | indexError
  | runtimeError (msg : String)
  | jobTypeError (jobName : String)
  deriving DecidableEq, Repr

/-- Parsed JSON values (the result of `json.loads`). -/
inductive Json where
  | null
  | bool (b : Bool)
  | num (n : Int)
  | str (s : String)
  | arr (elems : List Json)
  | obj (fields : List (String × Json))

/-- Python `d[k]` on a parsed-JSON value: `KeyError` on a dict without the
key, `TypeError` when subscripting a non-dict with a string key. -/
def Json.getKey : Json → String → Except Exc Json
  | .obj fields, k =>
    match fields.lookup k with
    | some v => Except.ok v
    | none => Except.error (Exc.keyError k)
  | _, _ => Except.error Exc.typeError

/-- Python attribute access for a str method (`.lower()`, `.startswith`,
`.split()`): `AttributeError` when the value is not a string. -/
def Json.pyStr : Json → Except Exc String
  | .str s => Except.ok s
  | _ => Except.error Exc.attributeError

/-- Python `j == "lit"` for a parsed-JSON value `j` and a string literal:
true exactly for the equal string (numbers and booleans never compare equal
to a string in Python). -/
def jsonStrEq (j : Json) (lit : String) : Bool :=
  match j with
  | .str s => s == lit
  | _ => false

/-- Python `for c in x`: lists yield their elements, strings their
characters, dicts their keys; other values raise `TypeError`. -/
def pyIter : Json → Except Exc (List Json)
  | .arr xs => Except.ok xs
  | .str s => Except.ok (s.toList.map (fun c => Json.str (String.singleton c)))
  | .obj fs => Except.ok (fs.map (fun p => Json.str p.1))
  | _ => Except.error Exc.typeError

/-- The process environment: `os.environ` as an association list.  An entry
with value `""` is set but Python-falsy. -/
structure Env where
  vars : List (String × String)

/-- Python `os.getenv(k)`. -/
def Env.getv (e : Env) (k : String) : Option String :=
  e.vars.lookup k

/-- Python `os.environ[k]`: raises `KeyError` when the variable is unset. -/
def Env.environItem (e : Env) (k : String) : Except Exc String :=
  match e.vars.lookup k with
  | some v => Except.ok v
  | none => Except.error (Exc.keyError k)

/-- Python truthiness of `os.getenv(k)`: `None` and `""` are falsy. -/
def pyTruthy : Option String → Bool
  | none => false
  | some s => !(s == "")

/-- Python `str(x)` for an `Optional[str]`: `str(None)` is `"None"`. -/
def pyStrOfOpt : Option String → String
  | none => "None"
  | some s => s

/-- The normalized inbound request (the Lambda function-URL event):
`requestContext.http.method`, optional `queryStringParameters`, `headers`,
and the raw `body` string. -/
structure Event where
  method : String
  queryStringParameters : Option (List (String × String))
  headers : List (String × String)
  body : String

/-- The dict `{"statusCode": ..., "body": ...}` produced by each handler
branch before the envelope merge. -/
structure HandlerResult where
  statusCode : Nat
  body : String
  deriving DecidableEq, Repr

/-- The full response after `base_response | result`: the fixed envelope
fields plus the handler's status code and body. -/
structure Response where
  headers : List (String × String)
  isBase64Encoded : Bool
  statusCode : Nat
  body : String
  deriving DecidableEq, Repr

/-- One recorded `stepfunctions.start_execution` call. -/
structure OrchCall where
  stateMachineArn : String
  input : String
  name : String
  deriving DecidableEq, Repr

/-- A UTC wall-clock instant, standing for `datetime.now(tz=UTC)`. -/
structure Timestamp where
  year : Nat
  month : Nat
  day : Nat
  hour : Nat
  minute : Nat
  second : Nat
  deriving DecidableEq, Repr

/-- Decimal rendering of a Nat zero-padded to width 2 (strftime `%m` etc.). -/
def pad2 (n : Nat) : String :=
  if n < 10 then "0" ++ toString n else toString n

/-- Decimal rendering of a Nat zero-padded to width 4 (strftime `%Y`). -/
def pad4 (n : Nat) : String :=
  if n < 10 then "000" ++ toString n
  else if n < 100 then "00" ++ toString n
  else if n < 1000 then "0" ++ toString n
  else toString n

/-- Python `datetime.strftime("%Y-%m-%dt%H-%M-%S")`. -/
def strftimeYmdtHMS (t : Timestamp) : String :=
  pad4 t.year ++ "-" ++ pad2 t.month ++ "-" ++ pad2 t.day ++ "t" ++
    pad2 t.hour ++ "-" ++ pad2 t.minute ++ "-" ++ pad2 t.second

/-- The base64 alphabet (RFC 4648, the alphabet `base64.b64encode` uses). -/
def b64alphabet : List Char :=
  "ABCDEFGHIJKLMNOPQRSTUVWXYZabcdefghijklmnopqrstuvwxyz0123456789+/".toList

/-- Character for a 6-bit group. -/
def b64charAt (n : Nat) : Char :=
  b64alphabet.getD n 'A'

/-- Python `base64.b64encode(bytes).decode()` on a byte list (each entry
below 256): standard base64 with `=` padding. -/
def b64encode : List Nat → String
  | [] => ""
  | [a] =>
    String.mk [b64charAt (a / 4), b64charAt (a % 4 * 16)] ++ "=="
  | [a, b] =>
    String.mk [b64charAt (a / 4), b64charAt (a % 4 * 16 + b / 16),
      b64charAt (b % 16 * 4)] ++ "="
  | a :: b :: c :: rest =>
    String.mk [b64charAt (a / 4), b64charAt (a % 4 * 16 + b / 16),
      b64charAt (b % 16 * 4 + c / 64), b64charAt (c % 64)] ++ b64encode rest

/-- Lowercase hexadecimal digit characters. -/
def hexDigitChar (n : Nat) : Char :=
  "0123456789abcdef".toList.getD n '0'

/-- Four lowercase hex digits (the `XXXX` of a JSON `\uXXXX` escape). -/
def hex4 (n : Nat) : String :=
  String.mk [hexDigitChar (n / 4096 % 16), hexDigitChar (n / 256 % 16),
    hexDigitChar (n / 16 % 16), hexDigitChar (n % 16)]

/-- How `json.dumps` (default `ensure_ascii=True`) renders one character of
a string: short escapes for the two-character escapes, `\uXXXX` for other
control characters and all non-ASCII characters (surrogate pairs above the
BMP), the character itself otherwise. -/
def jsonEscapeChar (c : Char) : String :=
  if c = '"' then "\\\""
  else if c = '\\' then "\\\\"
  else if c = '\n' then "\\n"
  else if c = '\t' then "\\t"
  else if c = '\r' then "\\r"
  else if c = '\x08' then "\\b"
  else if c = '\x0c' then "\\f"
  else if c.toNat < 32 ∨ 128 ≤ c.toNat then
    if c.toNat < 65536 then "\\u" ++ hex4 c.toNat
    else
      "\\u" ++ hex4 (55296 + (c.toNat - 65536) / 1024) ++
        "\\u" ++ hex4 (56320 + (c.toNat - 65536) % 1024)
  else String.singleton c

/-- Escape every character of a character list. -/
def jsonEscapeList : List Char → String
  | [] => ""
  | c :: cs => jsonEscapeChar c ++ jsonEscapeList cs

/-- The `json.dumps` rendering of a string value, quotes included. -/
def jsonQuote (s : String) : String :=
  "\"" ++ jsonEscapeList s.toList ++ "\""

mutual

/-- Python `json.dumps` with its default separators. -/
def Json.dumps : Json → String
  | .null => "null"
  | .bool b => if b then "true" else "false"
  | .num n => toString n
  | .str s => jsonQuote s
  | .arr xs => "[" ++ String.intercalate ", " (dumpsList xs) ++ "]"
  | .obj fs => "\x7b" ++ String.intercalate ", " (dumpsFields fs) ++ "\x7d"

/-- Rendered elements of a JSON array. -/
def dumpsList : List Json → List String
  | [] => []
  | x :: xs => Json.dumps x :: dumpsList xs

/-- Rendered `"key": value` members of a JSON object. -/
def dumpsFields : List (String × Json) → List String
  | [] => []
  | f :: fs => (jsonQuote f.1 ++ ": " ++ Json.dumps f.2) :: dumpsFields fs

end

/-- ASCII lowercasing of one character (the characters the repository
compares are ASCII; Python `str.lower()` agrees with this on them). -/
def asciiLowerChar (c : Char) : Char :=
  if 65 ≤ c.toNat ∧ c.toNat ≤ 90 then Char.ofNat (c.toNat + 32) else c

/-- Python `s.lower()` restricted to ASCII case mapping. -/
def pyLower (s : String) : String :=
  String.mk (s.toList.map asciiLowerChar)

/-- Python whitespace (the characters `str.strip()` and `int()` strip). -/
def isPySpace (c : Char) : Bool :=
  c == ' ' || c == '\t' || c == '\n' || c == '\r' || c == '\x0b' || c == '\x0c'

/-- Python `s.strip()`: leading and trailing whitespace removed. -/
def pyTrim (s : String) : String :=
  String.mk (((s.toList.dropWhile isPySpace).reverse.dropWhile isPySpace).reverse)

/-- Python `s.startswith(p)`: `p` is a prefix of `s`. -/
def strStartsWith (s p : String) : Bool :=
  p.toList.isPrefixOf s.toList

/-- ASCII decimal digit test. -/
def isAsciiDigit (c : Char) : Bool :=
  '0' ≤ c && c ≤ '9'

/-- Value of a nonempty all-digit character list, most significant first. -/
def parseDigits (cs : List Char) : Option Nat :=
  if !cs.isEmpty && cs.all isAsciiDigit then
    some (cs.foldl (fun acc c => acc * 10 + (c.toNat - 48)) 0)
  else none

/-- Python `int(s)` on a decimal string literal: surrounding whitespace is
stripped, an optional single sign is allowed, the rest must be digits;
anything else raises `ValueError` (modelled as `none`). -/
def parsePyInt (s : String) : Option Int :=
  match (pyTrim s).toList with
  | '-' :: rest => (parseDigits rest).map (fun n => -(n : Int))
  | '+' :: rest => (parseDigits rest).map (fun n => (n : Int))
  | cs => (parseDigits cs).map (fun n => (n : Int))

/-- Python `int(x)` applied to a parsed-JSON value, as in
`int(c["value"])`: numbers pass through, booleans coerce, strings are
parsed, other values raise. -/
def pyIntOf : Json → Except Exc Int
  | .num n => Except.ok n
  | .bool b => Except.ok (if b then 1 else 0)
  | .str s =>
    match parsePyInt s with
    | some n => Except.ok n
    | none => Except.error Exc.valueError
  | _ => Except.error Exc.typeError

/-- Contiguous-sublist test on character lists. -/
def listInfixTest (needle : List Char) : List Char → Bool
  | [] => needle.isEmpty
  | h :: t => needle.isPrefixOf (h :: t) || listInfixTest needle t

/-- Python `needle in hay` for strings: substring containment (the empty
needle is contained in every string). -/
def strContainsSub (hay needle : String) : Bool :=
  listInfixTest needle.toList hay.toList

/-- Tokenizer for Python `s.split()`: accumulate the current token (in
reverse) and cut at whitespace, dropping empty pieces. -/
def wsTokenize : List Char → List Char → List String
  | [], acc => if acc.isEmpty then [] else [String.mk acc.reverse]
  | c :: cs, acc =>
    if isPySpace c then
      if acc.isEmpty then wsTokenize cs []
      else String.mk acc.reverse :: wsTokenize cs []
    else wsTokenize cs (c :: acc)

/-- Python `s.split()`: split on whitespace runs, discarding empty pieces. -/
def pySplitWs (s : String) : List String :=
  wsTokenize s.toList []

/-- The three job families, in the order of the `job_types` list in
`get_job_type`. -/
inductive JobType where
  | PPOD
  | TIMDEX
  | BURSAR
  deriving DecidableEq, Repr

/-- The `job_type` string of each tuple in the `job_types` list. -/
def JobType.name : JobType → String
  | .PPOD => "PPOD"
  | .TIMDEX => "TIMDEX"
  | .BURSAR => "BURSAR"

/-- The `env_key` of each tuple in the `job_types` list. -/
def JobType.envKey : JobType → String
  | .PPOD => "ALMA_POD_EXPORT_JOB_NAME"
  | .TIMDEX => "ALMA_TIMDEX_EXPORT_JOB_NAME_PREFIX"
  | .BURSAR => "ALMA_BURSAR_EXPORT_JOB_NAME"

/-- The order of the `job_types` list in `get_job_type`. -/
def jobTypesOrder : List JobType :=
  [JobType.PPOD, JobType.TIMDEX, JobType.BURSAR]

/-- The loop body of `get_job_type`: for each job type in order, read its
environment variable with `os.getenv`; a falsy value (unset, or set to the
empty string) only logs a warning and the type is skipped; otherwise the
first type whose value is a prefix of `job_name` (`str.startswith`) wins.
When no type matches, `JobTypeError(job_name)` is raised. -/
def get_job_type_from (envv : Env) (job_name : String) :
    List JobType → Except Exc JobType
  | [] => Except.error (Exc.jobTypeError job_name)
  | jt :: rest =>
    match envv.getv (JobType.envKey jt) with
    | some p =>
      if !(p == "") && strStartsWith job_name p then Except.ok jt
      else get_job_type_from envv job_name rest
    | none => get_job_type_from envv job_name rest

/-- Embedding of `get_job_type` from `src/lambdas/webhook.py`.  The source returns the
pair of the job-type string and its input-builder function; the builder
component is recovered from the returned `JobType` by `builderFor`, which
pairs them exactly as the `job_types` list does. -/
def get_job_type (envv : Env) (job_name : String) : Except Exc JobType :=
  get_job_type_from envv job_name jobTypesOrder

/-- The `exported_record_types` list of `count_exported_records`. -/
def exported_record_types : List String :=
  ["label.new.records",
   "label.updated.records",
   "label.deleted.records",
   "com.exlibris.external.bursar.report.fines_fees_count"]

/-- Embedding of `count_exported_records` from `src/lambdas/webhook.py`:
`sum([int(c["value"]) for c in counter if c["type"]["value"] in
exported_record_types])`, with each entry's `c["type"]["value"]` evaluated
left to right and `int(c["value"])` evaluated only for recognized entries;
lookup and parse failures raise. -/
def count_exported_records : List Json → Except Exc Int
  | [] => Except.ok 0
  | c :: rest => do
    let tj ← c.getKey "type"
    let tv ← tj.getKey "value"
    let recognized :=
      match tv with
      | .str s => decide (s ∈ exported_record_types)
      | _ => false
    if recognized then do
      let vj ← c.getKey "value"
      let n ← pyIntOf vj
      let restSum ← count_exported_records rest
      Except.ok (n + restSum)
    else
      count_exported_records rest

/-- Python `s[:10]` on a string. -/
def strTake10 (s : String) : String :=
  String.mk (s.toList.take 10)

/-- Python `s.replace("-", "")`: every hyphen removed. -/
def removeHyphens (s : String) : String :=
  String.mk (s.toList.filter (fun c => c ≠ '-'))

/-- Embedding of `generate_ppod_step_function_input` from `src/lambdas/webhook.py`, with
`datetime.now(tz=UTC)` passed in as `ts`. -/
def generate_ppod_step_function_input (ts : Timestamp) (mb : Json) :
    Except Exc (String × String) := do
  let ji ← mb.getKey "job_instance"
  let etj ← ji.getKey "end_time"
  let et ← etj.pyStr
  let job_date := strTake10 et
  let result := Json.obj
    [("filename-prefix",
      Json.str ("exlibris/pod/POD_ALMA_EXPORT_" ++ removeHyphens job_date))]
  Except.ok (result.dumps, "ppod-upload-" ++ strftimeYmdtHMS ts)

/-- Embedding of `generate_timdex_step_function_input` from `src/lambdas/webhook.py`, with
`datetime.now(tz=UTC)` passed in as `ts`; `name.split()[-1]` on a name with
no tokens raises `IndexError`. -/
def generate_timdex_step_function_input (ts : Timestamp) (mb : Json) :
    Except Exc (String × String) := do
  let ji ← mb.getKey "job_instance"
  let etj ← ji.getKey "end_time"
  let et ← etj.pyStr
  let job_date := strTake10 et
  let nmj ← ji.getKey "name"
  let nm ← nmj.pyStr
  match (pySplitWs nm).getLast? with
  | none => Except.error Exc.indexError
  | some tok =>
    let run_type := pyLower tok
    let result := Json.obj
      [("next-step", Json.str "transform"),
       ("run-date", Json.str job_date),
       ("run-type", Json.str run_type),
       ("source", Json.str "alma"),
       ("verbose", Json.str "true")]
    Except.ok (result.dumps, "alma-" ++ run_type ++ "-ingest-" ++ strftimeYmdtHMS ts)

/-- Embedding of `generate_bursar_step_function_input` from `src/lambdas/webhook.py`; it
ignores the clock and uses the literal execution name `"bursar"`. -/
def generate_bursar_step_function_input (_ts : Timestamp) (mb : Json) :
    Except Exc (String × String) := do
  let ji ← mb.getKey "job_instance"
  let idj ← ji.getKey "id"
  let nmj ← ji.getKey "name"
  let result := Json.obj [("job_id", idj), ("job_name", nmj)]
  Except.ok (result.dumps, "bursar")

/-- The builder function paired with each job type in the `job_types` list
of `get_job_type`. -/
def builderFor : JobType → Timestamp → Json → Except Exc (String × String)
  | .PPOD => generate_ppod_step_function_input
  | .TIMDEX => generate_timdex_step_function_input
  | .BURSAR => generate_bursar_step_function_input

/-- Embedding of `valid_signature` from `src/lambdas/webhook.py`.  Here `digest` stands for the
external primitive `hmac.digest(secret.encode(), msg=message.encode(),
digest="sha256")`, taking the secret and the message and returning the MAC
bytes.  The secret is read with `os.environ[...]` (raising `KeyError` when
unset) before the header is examined; a missing `x-exl-signature` header
returns false via the `try/except KeyError`; otherwise the header is
compared with the standard-base64 encoding of the MAC. -/
def valid_signature (envv : Env) (digest : String → String → List Nat)
    (event : Event) : Except Exc Bool := do
  let secret ← envv.environItem "ALMA_CHALLENGE_SECRET"
  let message := event.body
  match event.headers.lookup "x-exl-signature" with
  | none => Except.ok false
  | some request_signature =>
    let message_hash := digest secret message
    let expected_signature := b64encode message_hash
    Except.ok (request_signature == expected_signature)

/-- Body of the 200 response for an authenticated non-JOB_END POST. -/
def notJobEndBody : String :=
  "Webhook POST request received and validated, not a JOB_END webhook " ++
    "so no action was taken."

/-- Body of the 401 response for a failed signature check. -/
def invalidSignatureBody : String :=
  "Unable to validate signature. Has the webhook challenge secret changed?"

/-- Body of the 200 response when `get_job_type` raises `JobTypeError`. -/
def noActionBody : String :=
  "Webhook POST request received and validated, no action taken."

/-- Body of the 200 response when the job was for another environment. -/
def envNoMatchBody (workspace : Option String) (job_name : String) : String :=
  "Webhook POST request received and validated in " ++ pyStrOfOpt workspace ++
    " env for job '" ++ job_name ++ "', no action taken."

/-- Body of the 200 response when the job did not complete successfully. -/
def jobFailedBody (job_name : String) : String :=
  "Webhook POST request received and validated, Alma job '" ++ job_name ++
    "' failed so no action was taken."

/-- Body of the 200 response when the job exported zero records. -/
def zeroRecordsBody (job_name : String) : String :=
  "Webhook POST request received and validated, Alma job '" ++ job_name ++
    "' exported zero records so no action was taken."

/-- Body of the 200 response after starting the pipeline. -/
def pipelineInitiatedBody (jt : JobType) : String :=
  "Webhook POST request received and validated, " ++ JobType.name jt ++
    " pipeline initiated."

/-- Embedding of `handle_job_end_webhook` from `src/lambdas/webhook.py`.  The module-level
`env = os.getenv("WORKSPACE")` is read from `envv`; `datetime.now` inside
the builders is `ts`; the `execute_state_machine` boto3 call is recorded in
the returned `OrchCall` list.  Only `JobTypeError` from `get_job_type` is
caught; every other exception propagates. -/
def handle_job_end_webhook (envv : Env) (ts : Timestamp) (mb : Json) :
    Except Exc (HandlerResult × List OrchCall) := do
  let ji ← mb.getKey "job_instance"
  let nmj ← ji.getKey "name"
  let job_name ← nmj.pyStr
  if !(strContainsSub (pyLower job_name)
        (pyLower (pyStrOfOpt (envv.getv "WORKSPACE")))) then
    Except.ok (⟨200, envNoMatchBody (envv.getv "WORKSPACE") job_name⟩, [])
  else
    match get_job_type envv job_name with
    | Except.error (Exc.jobTypeError _) =>
      Except.ok (⟨200, noActionBody⟩, [])
    | Except.error e => Except.error e
    | Except.ok job_type => do
      let st ← ji.getKey "status"
      let sv ← st.getKey "value"
      if !(jsonStrEq sv "COMPLETED_SUCCESS") then
        Except.ok (⟨200, jobFailedBody job_name⟩, [])
      else do
        let cj ← ji.getKey "counter"
        let citems ← pyIter cj
        let n ← count_exported_records citems
        if n == 0 then
          Except.ok (⟨200, zeroRecordsBody job_name⟩, [])
        else do
          let arn ← envv.environItem (JobType.name job_type ++ "_STATE_MACHINE_ARN")
          let pair ← builderFor job_type ts mb
          Except.ok (⟨200, pipelineInitiatedBody job_type⟩,
            [⟨arn, pair.1, pair.2⟩])

/-- Embedding of `handle_post_request` from `src/lambdas/webhook.py`.  Here `loads` stands for
the external primitive `json.loads`, raising (as an `Except.error`) on a
body that is not valid JSON. -/
def handle_post_request (envv : Env) (ts : Timestamp)
    (digest : String → String → List Nat) (loads : String → Except Exc Json)
    (event : Event) : Except Exc (HandlerResult × List OrchCall) := do
  let ok ← valid_signature envv digest event
  if !ok then
    Except.ok (⟨401, invalidSignatureBody⟩, [])
  else do
    let mb ← loads event.body
    let actionJ ← mb.getKey "action"
    if !(jsonStrEq actionJ "JOB_END") then
      Except.ok (⟨200, notJobEndBody⟩, [])
    else
      handle_job_end_webhook envv ts mb

/-- Embedding of `handle_get_request` from `src/lambdas/webhook.py`: the nested lookup
`event["queryStringParameters"]["challenge"]` under `try/except KeyError`,
so both a missing `queryStringParameters` mapping and a missing `challenge`
key give the 400 response. -/
def handle_get_request (event : Event) : HandlerResult :=
  match event.queryStringParameters.bind (fun qs => qs.lookup "challenge") with
  | none => ⟨400, "Malformed request, 'challenge' query parameter required."⟩
  | some challenge_secret => ⟨200, challenge_secret⟩

/-- Embedding of `lambda_handler` from `src/lambdas/webhook.py`: raise `RuntimeError` when
`WORKSPACE` is unset (or empty, Python-falsy); route on the HTTP method;
merge the branch result over the fixed `base_response` envelope. -/
def lambda_handler (envv : Env) (ts : Timestamp)
    (digest : String → String → List Nat) (loads : String → Except Exc Json)
    (event : Event) : Except Exc (Response × List OrchCall) := do
  if !(pyTruthy (envv.getv "WORKSPACE")) then
    Except.error (Exc.runtimeError "Required env variable WORKSPACE is not set")
  else do
    let pair ←
      if event.method == "GET" then
        Except.ok (handle_get_request event, ([] : List OrchCall))
      else if event.method == "POST" then
        handle_post_request envv ts digest loads event
      else
        Except.ok ((⟨405, "HTTP method " ++ event.method ++
          " not allowed. Supported methods: GET, POST."⟩ : HandlerResult),
          ([] : List OrchCall))
    Except.ok (⟨[("Content-Type", "text/plain")], false,
      pair.1.statusCode, pair.1.body⟩, pair.2)

/-- Equality of `Except` results is decidable, so concrete runs of the
embedded handlers can be checked by `decide`. -/
instance instDecEqExcept {e a : Type} [DecidableEq e] [DecidableEq a] :
    DecidableEq (Except e a) := fun x y =>
  match x, y with
  | .ok v, .ok w =>
    if h : v = w then isTrue (by rw [h]) else isFalse (by simp [h])
  | .error v, .error w =>
    if h : v = w then isTrue (by rw [h]) else isFalse (by simp [h])
  | .ok _, .error _ => isFalse (by simp)
  | .error _, .ok _ => isFalse (by simp)

section Fixtures

/-- A concrete environment mirroring the repository's test configuration. -/
def sampleEnv : Env := ⟨[
  ("WORKSPACE", "test"),
  ("ALMA_CHALLENGE_SECRET", "itsasecret"),
  ("ALMA_POD_EXPORT_JOB_NAME", "PPOD Export to test"),
  ("ALMA_TIMDEX_EXPORT_JOB_NAME_PREFIX", "TIMDEX Export to test"),
  ("ALMA_BURSAR_EXPORT_JOB_NAME", "Bursar Export to test"),
  ("PPOD_STATE_MACHINE_ARN", "arn:aws:states:us-east-1:account:stateMachine:ppod-test"),
  ("TIMDEX_STATE_MACHINE_ARN", "arn:aws:states:us-east-1:account:stateMachine:timdex-test"),
  ("BURSAR_STATE_MACHINE_ARN", "arn:aws:states:us-east-1:account:stateMachine:bursar-test")]⟩

/-- A concrete stand-in for the HMAC-SHA256 primitive, used only to
instantiate universally quantified theorems at a computable point. -/
def sampleDigest : String → String → List Nat := fun _ _ => [77, 97, 110]

/-- A concrete clock instant. -/
def sampleTs : Timestamp := ⟨2022, 5, 1, 14, 55, 14⟩

end Fixtures

/-- CLAIM C1.  For every request body and configured secret, signature
verification returns true exactly when the `x-exl-signature` header equals
the standard-base64 encoding of the HMAC-SHA256 MAC of the raw body under
the secret; any other header value gives false, and an absent header gives
false rather than an exception. -/
theorem valid_signature_correct (envv : Env)
    (digest : String → String → List Nat) (event : Event) (secret : String)
    (hsec : envv.environItem "ALMA_CHALLENGE_SECRET" = Except.ok secret) :
    (event.headers.lookup "x-exl-signature" =
        some (b64encode (digest secret event.body)) →
      valid_signature envv digest event = Except.ok true) ∧
    (∀ sig, event.headers.lookup "x-exl-signature" = some sig →
      sig ≠ b64encode (digest secret event.body) →
      valid_signature envv digest event = Except.ok false) ∧
    (event.headers.lookup "x-exl-signature" = none →
      valid_signature envv digest event = Except.ok false) := by
  refine ⟨?_, ?_, ?_⟩
  · intro h
    simp [valid_signature, hsec, h, bind, Except.bind]
  · intro sig h hne
    simp [valid_signature, hsec, h, bind, Except.bind, beq_eq_false_iff_ne, hne]
  · intro h
    simp [valid_signature, hsec, h, bind, Except.bind]

/-- Witness for C1: the three cases of `valid_signature_correct` at
concrete inputs (matching header, mismatching header, absent header). -/
theorem valid_signature_correct_witness :
    valid_signature sampleEnv sampleDigest
      ⟨"POST", none, [("x-exl-signature", "TWFu")], "body"⟩ = Except.ok true ∧
    valid_signature sampleEnv sampleDigest
      ⟨"POST", none, [("x-exl-signature", "wrong")], "body"⟩ = Except.ok false ∧
    valid_signature sampleEnv sampleDigest
      ⟨"POST", none, [], "body"⟩ = Except.ok false := by
  refine ⟨?_, ?_, ?_⟩
  · exact (valid_signature_correct sampleEnv sampleDigest
      ⟨"POST", none, [("x-exl-signature", "TWFu")], "body"⟩ "itsasecret"
      (by decide)).1 (by decide)
  · exact (valid_signature_correct sampleEnv sampleDigest
      ⟨"POST", none, [("x-exl-signature", "wrong")], "body"⟩ "itsasecret"
      (by decide)).2.1 "wrong" (by decide) (by decide)
  · exact (valid_signature_correct sampleEnv sampleDigest
      ⟨"POST", none, [], "body"⟩ "itsasecret"
      (by decide)).2.2 (by decide)

/-- CLAIM C7.  A GET request with a `challenge` query parameter is answered
with status 200 and the challenge value echoed verbatim as the body; without
it the handler returns status 400 and the malformed-request message. -/
theorem handle_get_request_challenge_echo (event : Event) :
    (∀ c, event.queryStringParameters.bind (fun qs => qs.lookup "challenge") =
        some c → handle_get_request event = ⟨200, c⟩) ∧
    (event.queryStringParameters.bind (fun qs => qs.lookup "challenge") =
        none → handle_get_request event =
      ⟨400, "Malformed request, 'challenge' query parameter required."⟩) := by
  constructor
  · intro c h
    simp [handle_get_request, h]
  · intro h
    simp [handle_get_request, h]

/-- Witness for C7: both cases of `handle_get_request_challenge_echo` at
concrete requests. -/
theorem handle_get_request_challenge_echo_witness :
    handle_get_request ⟨"GET", some [("challenge", "it's-a/weird &value")], [], ""⟩ =
      ⟨200, "it's-a/weird &value"⟩ ∧
    handle_get_request ⟨"GET", none, [], ""⟩ =
      ⟨400, "Malformed request, 'challenge' query parameter required."⟩ :=
  ⟨(handle_get_request_challenge_echo _).1 "it's-a/weird &value" (by decide),
   (handle_get_request_challenge_echo _).2 (by decide)⟩

/-- CLAIM C8.  Every normally returned response carries exactly the envelope
fields `headers = [("Content-Type", "text/plain")]` and
`isBase64Encoded = false` with the branch's status code and body, and a
method other than GET or POST gets status 405 with the method name
interpolated into the body. -/
theorem lambda_handler_envelope :
    (∀ envv ts digest loads event r calls,
      lambda_handler envv ts digest loads event = Except.ok (r, calls) →
        r.headers = [("Content-Type", "text/plain")] ∧
        r.isBase64Encoded = false) ∧
    (∀ envv ts digest loads event,
      pyTruthy (envv.getv "WORKSPACE") = true →
      event.method ≠ "GET" → event.method ≠ "POST" →
      lambda_handler envv ts digest loads event = Except.ok
        (⟨[("Content-Type", "text/plain")], false, 405,
          "HTTP method " ++ event.method ++
            " not allowed. Supported methods: GET, POST."⟩, [])) := by
  constructor
  · intro envv ts digest loads event r calls h
    by_cases hw : pyTruthy (envv.getv "WORKSPACE") = true
    · by_cases hg : event.method = "GET"
      · simp [lambda_handler, hw, hg, bind, Except.bind] at h
        obtain ⟨h1, -⟩ := h
        subst h1
        exact ⟨rfl, rfl⟩
      · have hg' : (event.method == "GET") = false := beq_eq_false_iff_ne.mpr hg
        by_cases hp : event.method = "POST"
        · simp [lambda_handler, hw, hg', hp, bind, Except.bind] at h
          cases hpr : handle_post_request envv ts digest loads event with
          | error e => rw [hpr] at h; simp at h
          | ok p =>
            rw [hpr] at h
            dsimp only at h
            simp at h
            obtain ⟨h1, -⟩ := h
            subst h1
            exact ⟨rfl, rfl⟩
        · have hp' : (event.method == "POST") = false := beq_eq_false_iff_ne.mpr hp
          simp [lambda_handler, hw, hg', hp', bind, Except.bind] at h
          obtain ⟨h1, -⟩ := h
          subst h1
          exact ⟨rfl, rfl⟩
    · simp [lambda_handler, Bool.eq_false_iff.mpr hw, bind, Except.bind] at h
  · intro envv ts digest loads event hw hg hp
    have hg' : (event.method == "GET") = false := beq_eq_false_iff_ne.mpr hg
    have hp' : (event.method == "POST") = false := beq_eq_false_iff_ne.mpr hp
    simp [lambda_handler, hw, hg', hp', bind, Except.bind]

/-- Witness for C8: the envelope invariant read off a concrete successful
GET run, and the 405 response of a concrete DELETE run. -/
theorem lambda_handler_envelope_witness :
    (Response.headers ⟨[("Content-Type", "text/plain")], false, 200,
        "challenge-accepted"⟩ = [("Content-Type", "text/plain")] ∧
      Response.isBase64Encoded ⟨[("Content-Type", "text/plain")], false, 200,
        "challenge-accepted"⟩ = false) ∧
    lambda_handler sampleEnv sampleTs sampleDigest (fun _ => Except.ok Json.null)
        ⟨"DELETE", none, [], ""⟩ = Except.ok
      (⟨[("Content-Type", "text/plain")], false, 405,
        "HTTP method DELETE not allowed. Supported methods: GET, POST."⟩, []) :=
  ⟨lambda_handler_envelope.1 sampleEnv sampleTs sampleDigest
      (fun _ => Except.ok Json.null)
      ⟨"GET", some [("challenge", "challenge-accepted")], [], ""⟩ _ [] (by decide),
   lambda_handler_envelope.2 sampleEnv sampleTs sampleDigest
      (fun _ => Except.ok Json.null) ⟨"DELETE", none, [], ""⟩ (by decide)
      (by decide) (by decide)⟩

/-- Whether one job type's test in the `get_job_type` loop fires: its
environment variable must be set to a Python-truthy (non-empty) value and
that value must be a prefix of the job name. -/
def jobTypeMatches (envv : Env) (job_name : String) (jt : JobType) : Bool :=
  match envv.getv (JobType.envKey jt) with
  | some p => !(p == "") && strStartsWith job_name p
  | none => false

/-- One step of the `get_job_type` loop: the head job type either fires or
the loop continues with the remaining types. -/
theorem get_job_type_from_cons (envv : Env) (job_name : String)
    (jt : JobType) (rest : List JobType) :
    get_job_type_from envv job_name (jt :: rest) =
      (if jobTypeMatches envv job_name jt then Except.ok jt
       else get_job_type_from envv job_name rest) := by
  simp only [get_job_type_from, jobTypeMatches]
  split <;> rename_i heq
  case isTrue =>
    split
    · rename_i p h2
      rw [h2] at heq
      simp only [Bool.and_eq_true, bne_iff_ne, ne_eq] at heq
      split
      · rfl
      · rename_i h3
        exact absurd (by simpa using heq) h3
    · rename_i h2
      rw [h2] at heq
      simp at heq
  case isFalse =>
    split
    · rename_i p h2
      split
      · rename_i h3
        exact absurd (by rw [h2]; simpa using h3) heq
      · rfl
    · rename_i h2
      rfl

/-- CLAIM C2.  Classification tries PPOD, then TIMDEX, then BURSAR, with
`startswith` against each type's configured prefix and first match winning;
a job type whose environment variable is unset (or empty, Python-falsy) is
skipped rather than failing; and when no prefix matches, the job-end
handler returns the 200 no-action response and records no orchestrator
call. -/
theorem get_job_type_classification :
    (∀ envv job_name, get_job_type envv job_name =
      (if jobTypeMatches envv job_name JobType.PPOD then Except.ok JobType.PPOD
       else if jobTypeMatches envv job_name JobType.TIMDEX then
         Except.ok JobType.TIMDEX
       else if jobTypeMatches envv job_name JobType.BURSAR then
         Except.ok JobType.BURSAR
       else Except.error (Exc.jobTypeError job_name))) ∧
    (∀ envv ts mb ji job_name,
      mb.getKey "job_instance" = Except.ok ji →
      ji.getKey "name" = Except.ok (Json.str job_name) →
      strContainsSub (pyLower job_name)
        (pyLower (pyStrOfOpt (envv.getv "WORKSPACE"))) = true →
      get_job_type envv job_name = Except.error (Exc.jobTypeError job_name) →
      handle_job_end_webhook envv ts mb =
        Except.ok (⟨200, noActionBody⟩, [])) := by
  constructor
  · intro envv job_name
    rw [get_job_type, jobTypesOrder, get_job_type_from_cons,
      get_job_type_from_cons, get_job_type_from_cons]
    simp only [get_job_type_from]
  · intro envv ts mb ji job_name hji hnm henv hjt
    simp [handle_job_end_webhook, hji, hnm, Json.pyStr, henv, hjt,
      bind, Except.bind]

/-- Witness for C2: with the sample environment, a PPOD-and-TIMDEX shaped
name classifies PPOD first, a TIMDEX name classifies TIMDEX, an environment
with the TIMDEX variable unset skips it, and an unmatched job name makes
the handler answer 200 no-action with no orchestrator call. -/
theorem get_job_type_classification_witness :
    get_job_type sampleEnv "TIMDEX Export to test DAILY" =
      Except.ok JobType.TIMDEX ∧
    get_job_type ⟨[("ALMA_TIMDEX_EXPORT_JOB_NAME_PREFIX", "")]⟩
      "TIMDEX Export to test DAILY" =
      Except.error (Exc.jobTypeError "TIMDEX Export to test DAILY") ∧
    handle_job_end_webhook sampleEnv sampleTs
      (Json.obj [("job_instance", Json.obj [("name", Json.str "This is Wrong test")])]) =
      Except.ok (⟨200, noActionBody⟩, []) := by
  refine ⟨?_, ?_, ?_⟩
  · rw [get_job_type_classification.1 sampleEnv "TIMDEX Export to test DAILY"]
    decide
  · rw [get_job_type_classification.1 ⟨[("ALMA_TIMDEX_EXPORT_JOB_NAME_PREFIX", "")]⟩
      "TIMDEX Export to test DAILY"]
    decide
  · exact get_job_type_classification.2 sampleEnv sampleTs
      (Json.obj [("job_instance", Json.obj [("name", Json.str "This is Wrong test")])])
      (Json.obj [("name", Json.str "This is Wrong test")]) "This is Wrong test"
      rfl rfl (by decide) (by decide)

/-- A well-formed counter entry as the Alma payload carries it:
`{"type": {"value": K}, "value": V}` for a record-type key `K` and a
string-encoded count `V`. -/
def mkCounterEntry (p : String × String) : Json :=
  Json.obj [("type", Json.obj [("value", Json.str p.1)]),
    ("value", Json.str p.2)]

/-- The sum the spec describes for a counter: over the entries whose
record-type key is recognized, the integer values of their `value`
strings; entries with unrecognized keys contribute nothing. -/
def specCounterSum (l : List (String × String)) : Int :=
  l.foldr
    (fun p acc =>
      if p.1 ∈ exported_record_types then (parsePyInt p.2).getD 0 + acc
      else acc) 0

/-- CLAIM C6.  `count_exported_records` of the empty list is 0, and on any
list of well-formed entries whose recognized values parse as integers it
sums exactly the recognized entries, parsing each value string and
ignoring entries with unrecognized keys. -/
theorem count_exported_records_correct :
    count_exported_records [] = Except.ok 0 ∧
    ∀ (l : List (String × String)),
      (∀ p ∈ l, p.1 ∈ exported_record_types → parsePyInt p.2 ≠ none) →
      count_exported_records (l.map mkCounterEntry) =
        Except.ok (specCounterSum l) := by
  constructor
  · rfl
  · intro l hl
    induction l with
    | nil => rfl
    | cons p rest ih =>
      have hrest := fun q hq => hl q (List.mem_cons_of_mem p hq)
      by_cases hm : p.1 ∈ exported_record_types
      · obtain ⟨n, hn⟩ :=
          Option.ne_none_iff_exists.mp (hl p (List.mem_cons_self p rest) hm)
        simp [count_exported_records, mkCounterEntry, Json.getKey,
          List.lookup, specCounterSum, hm, pyIntOf, ← hn, ih hrest, bind,
          Except.bind]
      · simp [count_exported_records, mkCounterEntry, Json.getKey,
          List.lookup, specCounterSum, hm, ih hrest, bind, Except.bind]

/-- Witness for C6: a concrete counter mixing recognized and unrecognized
keys sums to 6, matching the repository's own test data. -/
theorem count_exported_records_correct_witness :
    specCounterSum [("label.new.records", "1"), ("label.updated.records", "2"),
      ("label.deleted.records", "3"), ("c.jobs.publishing.skipped", "9")] = 6 ∧
    count_exported_records
      ([("label.new.records", "1"), ("label.updated.records", "2"),
        ("label.deleted.records", "3"),
        ("c.jobs.publishing.skipped", "9")].map mkCounterEntry) =
      Except.ok (specCounterSum [("label.new.records", "1"),
        ("label.updated.records", "2"), ("label.deleted.records", "3"),
        ("c.jobs.publishing.skipped", "9")]) :=
  ⟨by decide,
   count_exported_records_correct.2
     [("label.new.records", "1"), ("label.updated.records", "2"),
      ("label.deleted.records", "3"), ("c.jobs.publishing.skipped", "9")]
     (by decide)⟩

/-- Characters that `json.dumps` renders as themselves: printable ASCII
other than the quote and the backslash. -/
def SafeJsonChar (c : Char) : Prop :=
  32 ≤ c.toNat ∧ c.toNat < 128 ∧ c ≠ '"' ∧ c ≠ '\\'

instance (c : Char) : Decidable (SafeJsonChar c) := by
  unfold SafeJsonChar
  infer_instance

/-- A safe character escapes to itself. -/
theorem jsonEscapeChar_safe (c : Char) (h : SafeJsonChar c) :
    jsonEscapeChar c = String.singleton c := by
  obtain ⟨h1, h2, h3, h4⟩ := h
  unfold jsonEscapeChar
  rw [if_neg h3, if_neg h4,
    if_neg (by rintro rfl; exact absurd h1 (by decide)),
    if_neg (by rintro rfl; exact absurd h1 (by decide)),
    if_neg (by rintro rfl; exact absurd h1 (by decide)),
    if_neg (by rintro rfl; exact absurd h1 (by decide)),
    if_neg (by rintro rfl; exact absurd h1 (by decide)),
    if_neg (by omega)]

/-- A list of safe characters escapes to itself. -/
theorem jsonEscapeList_safe (cs : List Char) (h : ∀ c ∈ cs, SafeJsonChar c) :
    jsonEscapeList cs = String.mk cs := by
  induction cs with
  | nil => rfl
  | cons c rest ih =>
    simp only [jsonEscapeList]
    rw [jsonEscapeChar_safe c (h c (List.mem_cons_self c rest)),
      ih (fun d hd => h d (List.mem_cons_of_mem c hd))]
    rfl

/-- A string of safe characters quotes to itself between two quote marks. -/
theorem jsonQuote_safe (s : String) (h : ∀ c ∈ s.toList, SafeJsonChar c) :
    jsonQuote s = "\"" ++ s ++ "\"" := by
  rw [jsonQuote, jsonEscapeList_safe s.toList h]
  cases s
  rfl

/-- The `json.dumps` rendering of a one-field object with a string value. -/
theorem dumps_obj_single_str (k v : String) :
    Json.dumps (Json.obj [(k, Json.str v)]) =
      "\x7b" ++ jsonQuote k ++ ": " ++ jsonQuote v ++ "\x7d" :=
  rfl

/-- CLAIM C4.  For a job-end event whose `end_time` is a plain string (its
first 10 characters printable ASCII without quote or backslash, as any
`YYYY-MM-DD` date is), the PPOD builder returns exactly the JSON string
with filename-prefix `exlibris/pod/POD_ALMA_EXPORT_` followed by the first
10 characters of `end_time` with hyphens removed, and the execution name
`ppod-upload-` followed by the current UTC time formatted
`%Y-%m-%dt%H-%M-%S`. -/
theorem generate_ppod_input_correct (ts : Timestamp) (mb ji : Json)
    (et : String)
    (hji : mb.getKey "job_instance" = Except.ok ji)
    (het : ji.getKey "end_time" = Except.ok (Json.str et))
    (hsafe : ∀ c ∈ (strTake10 et).toList, SafeJsonChar c) :
    generate_ppod_step_function_input ts mb = Except.ok
      ("\x7b\"filename-prefix\": \"exlibris/pod/POD_ALMA_EXPORT_" ++
        removeHyphens (strTake10 et) ++ "\"\x7d",
       "ppod-upload-" ++ strftimeYmdtHMS ts) := by
  have hv : jsonQuote
      ("exlibris/pod/POD_ALMA_EXPORT_" ++ removeHyphens (strTake10 et)) =
      "\"" ++ ("exlibris/pod/POD_ALMA_EXPORT_" ++
        removeHyphens (strTake10 et)) ++ "\"" := by
    apply jsonQuote_safe
    intro c hc
    rw [String.toList, String.data_append] at hc
    rcases List.mem_append.mp hc with hc | hc
    · have hlit : ∀ x ∈ "exlibris/pod/POD_ALMA_EXPORT_".data, SafeJsonChar x := by
        decide
      exact hlit c hc
    · apply hsafe
      rw [removeHyphens, String.toList] at hc
      exact List.mem_of_mem_filter hc
  have hk : jsonQuote "filename-prefix" = "\"filename-prefix\"" := by decide
  simp only [generate_ppod_step_function_input, hji, het, Json.pyStr, bind,
    Except.bind]
  rw [dumps_obj_single_str, hv, hk]
  refine congrArg _ (Prod.ext ?_ rfl)
  apply String.ext
  simp [String.data_append, List.append_assoc]

/-- A concrete successful PPOD job-end payload, matching the repository's
test data. -/
def ppodSampleMb : Json := Json.obj [("action", Json.str "JOB_END"),
  ("job_instance", Json.obj [
    ("name", Json.str "PPOD Export to test"),
    ("end_time", Json.str "2022-05-01T14:55:14.894Z"),
    ("status", Json.obj [("value", Json.str "COMPLETED_SUCCESS")]),
    ("counter", Json.arr [mkCounterEntry ("label.new.records", "1")])])]

/-- Witness for C4: the PPOD builder at the concrete test payload and the
sample clock instant. -/
theorem generate_ppod_input_correct_witness :
    removeHyphens (strTake10 "2022-05-01T14:55:14.894Z") = "20220501" ∧
    generate_ppod_step_function_input sampleTs ppodSampleMb = Except.ok
      ("\x7b\"filename-prefix\": \"exlibris/pod/POD_ALMA_EXPORT_" ++
        removeHyphens (strTake10 "2022-05-01T14:55:14.894Z") ++ "\"\x7d",
       "ppod-upload-" ++ strftimeYmdtHMS sampleTs) :=
  ⟨by decide,
   generate_ppod_input_correct sampleTs ppodSampleMb
     (Json.obj [
       ("name", Json.str "PPOD Export to test"),
       ("end_time", Json.str "2022-05-01T14:55:14.894Z"),
       ("status", Json.obj [("value", Json.str "COMPLETED_SUCCESS")]),
       ("counter", Json.arr [mkCounterEntry ("label.new.records", "1")])])
     "2022-05-01T14:55:14.894Z" rfl rfl (by decide)⟩

/-- A classified, successfully completed PPOD job-end payload whose
`job_instance` has no `counter` key. -/
def noCounterSampleMb : Json := Json.obj [("action", Json.str "JOB_END"),
  ("job_instance", Json.obj [
    ("name", Json.str "PPOD Export to test"),
    ("status", Json.obj [("value", Json.str "COMPLETED_SUCCESS")])])]

/-- Counterexample for C3.  A classified, successfully completed job-end
event with no `counter` field makes `handle_job_end_webhook` raise
`KeyError("counter")` instead of treating the counter as an empty sequence
and answering 200. -/
theorem handle_job_end_missing_counter_raises :
    handle_job_end_webhook sampleEnv sampleTs noCounterSampleMb =
      Except.error (Exc.keyError "counter") := by decide

/-- C3 as amended.  For a classified, successfully completed job-end event:
an absent `counter` field propagates as an unhandled `KeyError("counter")`,
while a present empty counter list sums to zero and takes the zero-records
gate (200 response, no orchestrator call). -/
theorem handle_job_end_counter_behavior (envv : Env) (ts : Timestamp)
    (mb ji st : Json) (job_name : String)
    (hji : mb.getKey "job_instance" = Except.ok ji)
    (hnm : ji.getKey "name" = Except.ok (Json.str job_name))
    (henv : strContainsSub (pyLower job_name)
      (pyLower (pyStrOfOpt (envv.getv "WORKSPACE"))) = true)
    (hjt : ∃ jt, get_job_type envv job_name = Except.ok jt)
    (hst : ji.getKey "status" = Except.ok st)
    (hsv : st.getKey "value" = Except.ok (Json.str "COMPLETED_SUCCESS")) :
    (ji.getKey "counter" = Except.error (Exc.keyError "counter") →
      handle_job_end_webhook envv ts mb =
        Except.error (Exc.keyError "counter")) ∧
    (ji.getKey "counter" = Except.ok (Json.arr []) →
      handle_job_end_webhook envv ts mb =
        Except.ok (⟨200, zeroRecordsBody job_name⟩, [])) := by
  obtain ⟨jt, hjt⟩ := hjt
  constructor
  · intro hc
    simp [handle_job_end_webhook, hji, hnm, Json.pyStr, henv, hjt, hst, hsv,
      hc, jsonStrEq, bind, Except.bind]
  · intro hc
    simp [handle_job_end_webhook, hji, hnm, Json.pyStr, henv, hjt, hst, hsv,
      hc, jsonStrEq, pyIter, count_exported_records, bind, Except.bind]

/-- Witness for C3 as amended: both counter cases at concrete payloads. -/
theorem handle_job_end_counter_behavior_witness :
    handle_job_end_webhook sampleEnv sampleTs noCounterSampleMb =
      Except.error (Exc.keyError "counter") ∧
    handle_job_end_webhook sampleEnv sampleTs
      (Json.obj [("action", Json.str "JOB_END"),
        ("job_instance", Json.obj [
          ("name", Json.str "PPOD Export to test"),
          ("status", Json.obj [("value", Json.str "COMPLETED_SUCCESS")]),
          ("counter", Json.arr [])])]) =
      Except.ok (⟨200, zeroRecordsBody "PPOD Export to test"⟩, []) :=
  ⟨(handle_job_end_counter_behavior sampleEnv sampleTs noCounterSampleMb
      (Json.obj [
        ("name", Json.str "PPOD Export to test"),
        ("status", Json.obj [("value", Json.str "COMPLETED_SUCCESS")])])
      (Json.obj [("value", Json.str "COMPLETED_SUCCESS")])
      "PPOD Export to test" rfl rfl (by decide) ⟨JobType.PPOD, by decide⟩
      rfl rfl).1 rfl,
   (handle_job_end_counter_behavior sampleEnv sampleTs
      (Json.obj [("action", Json.str "JOB_END"),
        ("job_instance", Json.obj [
          ("name", Json.str "PPOD Export to test"),
          ("status", Json.obj [("value", Json.str "COMPLETED_SUCCESS")]),
          ("counter", Json.arr [])])])
      (Json.obj [
        ("name", Json.str "PPOD Export to test"),
        ("status", Json.obj [("value", Json.str "COMPLETED_SUCCESS")]),
        ("counter", Json.arr [])])
      (Json.obj [("value", Json.str "COMPLETED_SUCCESS")])
      "PPOD Export to test" rfl rfl (by decide) ⟨JobType.PPOD, by decide⟩
      rfl rfl).2 rfl⟩

/-- A classified PPOD job-end payload whose status is `COMPLETED_FAILED`,
the scenario of the repository test
`test_webhook_handles_post_request_job_end_job_failed`. -/
def failedSampleMb : Json := Json.obj [("action", Json.str "JOB_END"),
  ("job_instance", Json.obj [
    ("name", Json.str "PPOD Export to test"),
    ("status", Json.obj [("value", Json.str "COMPLETED_FAILED")])])]

/-- CLAIM C5 (evaluation at the failing input).  On a classified job-end
event with status `COMPLETED_FAILED` the code answers 200 with no
orchestrator call, but its body interpolates the job name —
`Alma job '{job_name}' failed so no action was taken.` — not the job type;
the repository's own test expects the `{job_type} export job failed` body
the claim states, so the code contradicts its tests here. -/
theorem handle_job_end_failed_status_body :
    handle_job_end_webhook sampleEnv sampleTs failedSampleMb =
      Except.ok (⟨200,
        "Webhook POST request received and validated, Alma job " ++
          "'PPOD Export to test' failed so no action was taken."⟩, []) ∧
    jobFailedBody "PPOD Export to test" ≠
      "Webhook POST request received and validated, PPOD export job " ++
        "failed so no action was taken." ∧
    jobFailedBody "PPOD Export to test" ≠
      "PPOD export job failed so no action was taken." := by
  refine ⟨by decide, by decide, by decide⟩

/-- CLAIM C9.  `valid_signature` reads the shared secret with
`os.environ[...]` before looking at the request, so with
`ALMA_CHALLENGE_SECRET` unset it raises `KeyError` — even when the
`x-exl-signature` header is also absent — and the 401 invalid-signature
response can only be produced when the secret is configured. -/
theorem valid_signature_requires_secret (envv : Env) (ts : Timestamp)
    (digest : String → String → List Nat) (loads : String → Except Exc Json)
    (event : Event) :
    (envv.getv "ALMA_CHALLENGE_SECRET" = none →
      valid_signature envv digest event =
        Except.error (Exc.keyError "ALMA_CHALLENGE_SECRET") ∧
      handle_post_request envv ts digest loads event =
        Except.error (Exc.keyError "ALMA_CHALLENGE_SECRET")) ∧
    (∀ r calls,
      handle_post_request envv ts digest loads event = Except.ok (r, calls) →
      r.statusCode = 401 → envv.getv "ALMA_CHALLENGE_SECRET" ≠ none) := by
  have hvs : envv.getv "ALMA_CHALLENGE_SECRET" = none →
      valid_signature envv digest event =
        Except.error (Exc.keyError "ALMA_CHALLENGE_SECRET") := by
    intro hn
    rw [Env.getv] at hn
    simp [valid_signature, Env.environItem, hn, bind, Except.bind]
  have hpost : envv.getv "ALMA_CHALLENGE_SECRET" = none →
      handle_post_request envv ts digest loads event =
        Except.error (Exc.keyError "ALMA_CHALLENGE_SECRET") := by
    intro hn
    simp [handle_post_request, hvs hn, bind, Except.bind]
  refine ⟨fun hn => ⟨hvs hn, hpost hn⟩, fun r calls hok _ hn => ?_⟩
  rw [hpost hn] at hok
  cases hok

/-- Witness for C9: with no secret configured, a POST without the header
raises `KeyError`, and a concrete 401 run shows the secret was set. -/
theorem valid_signature_requires_secret_witness :
    valid_signature ⟨[]⟩ sampleDigest ⟨"POST", none, [], "body"⟩ =
      Except.error (Exc.keyError "ALMA_CHALLENGE_SECRET") ∧
    handle_post_request ⟨[]⟩ sampleTs sampleDigest
      (fun _ => Except.ok Json.null) ⟨"POST", none, [], "body"⟩ =
      Except.error (Exc.keyError "ALMA_CHALLENGE_SECRET") ∧
    sampleEnv.getv "ALMA_CHALLENGE_SECRET" ≠ none :=
  ⟨((valid_signature_requires_secret ⟨[]⟩ sampleTs sampleDigest
      (fun _ => Except.ok Json.null) ⟨"POST", none, [], "body"⟩).1 rfl).1,
   ((valid_signature_requires_secret ⟨[]⟩ sampleTs sampleDigest
      (fun _ => Except.ok Json.null) ⟨"POST", none, [], "body"⟩).1 rfl).2,
   (valid_signature_requires_secret sampleEnv sampleTs sampleDigest
      (fun _ => Except.ok Json.null)
      ⟨"POST", none, [("x-exl-signature", "wrong")], "body"⟩).2
     ⟨401, invalidSignatureBody⟩ [] (by decide) rfl⟩

/-- The test `jsonStrEq` agrees with equality against a string literal. -/
theorem jsonStrEq_iff (j : Json) (lit : String) :
    jsonStrEq j lit = true ↔ j = Json.str lit := by
  cases j <;> simp [jsonStrEq]

/-- String concatenation is associative. -/
theorem str_append_assoc (a b c : String) :
    a ++ b ++ c = a ++ (b ++ c) :=
  String.ext (by simp [String.data_append])

/-- A string starting with prefix `p` differs from any string whose first
`p.data.length` characters differ from `p`. -/
theorem append_ne_of_take (p x t : String)
    (h : t.data.take p.data.length ≠ p.data) : p ++ x ≠ t := by
  intro he
  apply h
  rw [← he, String.data_append, List.take_left]

/-- The different-environment body never coincides with the non-JOB_END
acknowledgement body. -/
theorem envNoMatchBody_ne (w : Option String) (jn : String) :
    envNoMatchBody w jn ≠ notJobEndBody := by
  rw [envNoMatchBody, str_append_assoc, str_append_assoc, str_append_assoc]
  exact append_ne_of_take _ _ _ (by decide)

/-- The unclassified-job body never coincides with the non-JOB_END
acknowledgement body. -/
theorem noActionBody_ne : noActionBody ≠ notJobEndBody := by decide

/-- The failed-job body never coincides with the non-JOB_END
acknowledgement body. -/
theorem jobFailedBody_ne (jn : String) : jobFailedBody jn ≠ notJobEndBody := by
  rw [jobFailedBody, str_append_assoc]
  exact append_ne_of_take _ _ _ (by decide)

/-- The zero-records body never coincides with the non-JOB_END
acknowledgement body. -/
theorem zeroRecordsBody_ne (jn : String) :
    zeroRecordsBody jn ≠ notJobEndBody := by
  rw [zeroRecordsBody, str_append_assoc]
  exact append_ne_of_take _ _ _ (by decide)

/-- The pipeline-initiated body never coincides with the non-JOB_END
acknowledgement body. -/
theorem pipelineInitiatedBody_ne (jt : JobType) :
    pipelineInitiatedBody jt ≠ notJobEndBody := by
  cases jt <;> decide

/-- The handler `handle_job_end_webhook` never answers with the non-JOB_END
acknowledgement body: each of its five response bodies differs from it. -/
theorem handle_job_end_body_ne (envv : Env) (ts : Timestamp) (mb : Json)
    (r : HandlerResult) (calls : List OrchCall)
    (h : handle_job_end_webhook envv ts mb = Except.ok (r, calls)) :
    r.body ≠ notJobEndBody := by
  have finish : ∀ (b : String) (cs : List OrchCall),
      (Except.ok ((⟨200, b⟩ : HandlerResult), cs) :
        Except Exc (HandlerResult × List OrchCall)) = Except.ok (r, calls) →
      b ≠ notJobEndBody → r.body ≠ notJobEndBody := by
    intro b cs hh hb
    injection hh with hh
    have hr : (⟨200, b⟩ : HandlerResult) = r := congrArg Prod.fst hh
    rw [← hr]
    exact hb
  simp only [handle_job_end_webhook, bind, Except.bind] at h
  cases h1 : mb.getKey "job_instance" with
  | error e => rw [h1] at h; cases h
  | ok ji =>
  rw [h1] at h
  dsimp only at h
  cases h2 : ji.getKey "name" with
  | error e => rw [h2] at h; cases h
  | ok nmj =>
  rw [h2] at h
  dsimp only at h
  cases h3 : nmj.pyStr with
  | error e => rw [h3] at h; cases h
  | ok job_name =>
  rw [h3] at h
  dsimp only at h
  by_cases h4 : strContainsSub (pyLower job_name)
      (pyLower (pyStrOfOpt (envv.getv "WORKSPACE"))) = true
  · simp only [h4, Bool.not_true, Bool.false_eq_true, if_false] at h
    cases h5 : get_job_type envv job_name with
    | error e =>
      rw [h5] at h
      cases e with
      | jobTypeError jn => exact finish _ _ (by exact h) noActionBody_ne
      | keyError k => cases h
      | typeError => cases h
      | attributeError => cases h
      | valueError => cases h
      | indexError => cases h
      | runtimeError m => cases h
    | ok jt =>
    rw [h5] at h
    dsimp only at h
    cases h6 : ji.getKey "status" with
    | error e => rw [h6] at h; cases h
    | ok st =>
    rw [h6] at h
    dsimp only at h
    cases h7 : st.getKey "value" with
    | error e => rw [h7] at h; cases h
    | ok sv =>
    rw [h7] at h
    dsimp only at h
    by_cases h8 : jsonStrEq sv "COMPLETED_SUCCESS" = true
    · simp only [h8, Bool.not_true, Bool.false_eq_true, if_false] at h
      cases h9 : ji.getKey "counter" with
      | error e => rw [h9] at h; cases h
      | ok cj =>
      rw [h9] at h
      dsimp only at h
      cases h10 : pyIter cj with
      | error e => rw [h10] at h; cases h
      | ok citems =>
      rw [h10] at h
      dsimp only at h
      cases h11 : count_exported_records citems with
      | error e => rw [h11] at h; cases h
      | ok n =>
      rw [h11] at h
      dsimp only at h
      by_cases h12 : (n == 0) = true
      · simp only [h12, if_true] at h
        exact finish _ _ h (zeroRecordsBody_ne job_name)
      · simp only [h12, Bool.false_eq_true, if_false] at h
        cases h13 : envv.environItem (JobType.name jt ++ "_STATE_MACHINE_ARN") with
        | error e => rw [h13] at h; cases h
        | ok arn =>
        rw [h13] at h
        dsimp only at h
        cases h14 : builderFor jt ts mb with
        | error e => rw [h14] at h; cases h
        | ok pair =>
        rw [h14] at h
        dsimp only at h
        exact finish _ _ h (pipelineInitiatedBody_ne jt)
    · simp only [Bool.eq_false_iff.mpr h8, Bool.not_false, if_true] at h
      exact finish _ _ h (jobFailedBody_ne job_name)
  · simp only [Bool.eq_false_iff.mpr h4, Bool.not_false, if_true] at h
    exact finish _ _ h (envNoMatchBody_ne (envv.getv "WORKSPACE") job_name)

/-- CLAIM C10.  For an authenticated POST: an invalid-JSON body propagates
the parser's exception; a parsed object without an `action` key raises
`KeyError("action")`; an `action` value other than the string `JOB_END`
yields the 200 acknowledgement with no orchestrator call; and that
acknowledgement body is returned only in that case. -/
theorem handle_post_request_parsing (envv : Env) (ts : Timestamp)
    (digest : String → String → List Nat) (loads : String → Except Exc Json)
    (event : Event)
    (hsig : valid_signature envv digest event = Except.ok true) :
    (∀ e, loads event.body = Except.error e →
      handle_post_request envv ts digest loads event = Except.error e) ∧
    (∀ fs, loads event.body = Except.ok (Json.obj fs) →
      fs.lookup "action" = none →
      handle_post_request envv ts digest loads event =
        Except.error (Exc.keyError "action")) ∧
    (∀ mb a, loads event.body = Except.ok mb →
      mb.getKey "action" = Except.ok a → a ≠ Json.str "JOB_END" →
      handle_post_request envv ts digest loads event =
        Except.ok (⟨200, notJobEndBody⟩, [])) ∧
    (∀ r calls,
      handle_post_request envv ts digest loads event = Except.ok (r, calls) →
      r.body = notJobEndBody →
      ∃ mb a, loads event.body = Except.ok mb ∧
        mb.getKey "action" = Except.ok a ∧ a ≠ Json.str "JOB_END") := by
  refine ⟨?_, ?_, ?_, ?_⟩
  · intro e he
    simp [handle_post_request, hsig, he, bind, Except.bind]
  · intro fs hl ha
    simp [handle_post_request, hsig, hl, Json.getKey, ha, bind, Except.bind]
  · intro mb a hl ha hne
    have ha' : jsonStrEq a "JOB_END" = false :=
      Bool.eq_false_iff.mpr (fun hh => hne ((jsonStrEq_iff a "JOB_END").mp hh))
    simp [handle_post_request, hsig, hl, ha, ha', bind, Except.bind]
  · intro r calls h hbody
    simp only [handle_post_request, hsig, bind, Except.bind] at h
    simp only [Bool.not_true, Bool.false_eq_true, if_false] at h
    cases hl : loads event.body with
    | error e => rw [hl] at h; cases h
    | ok mb =>
    rw [hl] at h
    dsimp only at h
    cases ha : mb.getKey "action" with
    | error e => rw [ha] at h; cases h
    | ok a =>
    rw [ha] at h
    dsimp only at h
    by_cases haj : jsonStrEq a "JOB_END" = true
    · simp only [haj, Bool.not_true, Bool.false_eq_true, if_false] at h
      exact absurd hbody (handle_job_end_body_ne envv ts mb r calls h)
    · exact ⟨mb, a, rfl, ha,
        fun hh => haj ((jsonStrEq_iff a "JOB_END").mpr hh)⟩

/-- Witness for C10: the three branch behaviours at concrete parsers and a
concrete authenticated request. -/
theorem handle_post_request_parsing_witness :
    handle_post_request sampleEnv sampleTs sampleDigest
      (fun _ => Except.error Exc.valueError)
      ⟨"POST", none, [("x-exl-signature", "TWFu")], "body"⟩ =
      Except.error Exc.valueError ∧
    handle_post_request sampleEnv sampleTs sampleDigest
      (fun _ => Except.ok (Json.obj [("other", Json.str "x")]))
      ⟨"POST", none, [("x-exl-signature", "TWFu")], "body"⟩ =
      Except.error (Exc.keyError "action") ∧
    handle_post_request sampleEnv sampleTs sampleDigest
      (fun _ => Except.ok (Json.obj [("action", Json.str "THIS_IS_WRONG")]))
      ⟨"POST", none, [("x-exl-signature", "TWFu")], "body"⟩ =
      Except.ok (⟨200, notJobEndBody⟩, []) := by
  refine ⟨?_, ?_, ?_⟩
  · exact (handle_post_request_parsing sampleEnv sampleTs sampleDigest
      (fun _ => Except.error Exc.valueError)
      ⟨"POST", none, [("x-exl-signature", "TWFu")], "body"⟩
      (by decide)).1 Exc.valueError rfl
  · exact (handle_post_request_parsing sampleEnv sampleTs sampleDigest
      (fun _ => Except.ok (Json.obj [("other", Json.str "x")]))
      ⟨"POST", none, [("x-exl-signature", "TWFu")], "body"⟩
      (by decide)).2.1 [("other", Json.str "x")] rfl rfl
  · exact (handle_post_request_parsing sampleEnv sampleTs sampleDigest
      (fun _ => Except.ok (Json.obj [("action", Json.str "THIS_IS_WRONG")]))
      ⟨"POST", none, [("x-exl-signature", "TWFu")], "body"⟩
      (by decide)).2.2.1 (Json.obj [("action", Json.str "THIS_IS_WRONG")])
      (Json.str "THIS_IS_WRONG") rfl rfl (by simp)

end AlmaWebhook
